import Mathlib

/-!
Shallow embedding of the rag-frontend client (two React components:
`FileUpload` in src/src/component/FileUpload.tsx and `ChatBot` in the
unnamed source file).  Pure computations are translated as Lean
functions; the component `useState` cells become fields of explicit
state records; event handlers become state-transition functions.
Nondeterministic inputs of the environment (fetch outcomes, the random
timer increments, generated ids, timestamps) are passed as parameters.
-/

namespace RagFrontend

/-! ## Chat data model (ChatBot source, lines 4-17) -/

/-- `type Mode = "file_only" | "rag"` -/
inductive Mode where
  | file_only
  | rag
deriving DecidableEq

/-- The string a `Mode` value denotes in the TypeScript source. -/
def Mode.toString : Mode → String
  | Mode.file_only => "file_only"
  | Mode.rag => "rag"

/-- `role: "user" | "assistant" | "error"` of a chat `Message`. -/
inductive Role where
  | user
  | assistant
  | error
deriving DecidableEq

/-- `interface Message` (id, role, content, optional mode, timestamp).
Timestamps (`Date` objects) are abstracted as natural numbers. -/
structure Message where
  id : String
  role : Role
  content : String
  mode : Option Mode
  timestamp : Nat
deriving DecidableEq

/-! ## Chat network call (ChatBot source, lines 20-51)

A fetch of the chat endpoint either fails at the network level
(`fetch` rejects), or yields an HTTP response with an `ok` flag and a
body.  `response.json()` can itself fail (body `none`); a parsed body
is a JSON object whose relevant fields `answer`, `response`, `message`
are each present (a string) or absent. -/

/-- The three string fields of the chat JSON response that
`sendMessage` inspects; `none` models an absent field. -/
structure ChatJson where
  answer : Option String
  response : Option String
  message : Option String
deriving DecidableEq

/-- Outcome of a `fetch` of the chat endpoint, as observable by
`sendMessage`: a network-level rejection, or an HTTP response with its
`ok` flag and its body (`none` when `response.json()` fails). -/
inductive FetchOutcome where
  | networkError
  | httpResponse (ok : Bool) (body : Option ChatJson)
deriving DecidableEq

/-- The fixed user-facing fallback string of `sendMessage`. -/
def fallbackMsg : String := "Something went wrong. Please try again."

/-- The `try` block of `sendMessage` (lines 23-43): a non-ok response
throws (with the fallback string as the `Error` message), a JSON parse
failure throws, a network failure rejects; otherwise the returned
string is `data.answer ?? data.response ?? data.message ?? fallback`. -/
def sendMessageTry (o : FetchOutcome) : Except String String :=
  match o with
  | FetchOutcome.networkError => Except.error "TypeError: Failed to fetch"
  | FetchOutcome.httpResponse ok body =>
    if ok then
      match body with
      | none => Except.error "SyntaxError: Unexpected end of JSON input"
      | some data =>
        Except.ok
          (data.answer.getD (data.response.getD (data.message.getD fallbackMsg)))
    else
      Except.error fallbackMsg

/-- `sendMessage` (lines 22-51): its whole body is the `try` block
wrapped in a `catch` that returns the fallback string, so the function
returns a string on every outcome (its promise never rejects). -/
def sendMessage (o : FetchOutcome) : String :=
  match sendMessageTry o with
  | Except.ok s => s
  | Except.error _ => fallbackMsg

/-- The JSON body `fetch` posts to the chat endpoint:
`JSON.stringify({ question, mode: "rag" })` (line 27). -/
structure ChatRequestBody where
  question : String
  mode : String
deriving DecidableEq

/-- The request body built inside `sendMessage` (line 27): the `mode`
field is the literal string `"rag"`. -/
def chatRequestBody (question : String) : ChatRequestBody :=
  { question := question, mode := "rag" }

/-- The client-side mode state: `const [mode] = useState<Mode>("file_only")`
(line 140); the toggle that would change it is commented out, so it is
constant. -/
def clientInitialMode : Mode := Mode.file_only

/-! ## ChatBot component state and handlers (lines 130-200) -/

/-- The `useState` cells of `ChatBot` that the handlers read and write
(`messages`, `input`, `mode`, `loading`). -/
structure ChatState where
  messages : List Message
  input : String
  mode : Mode
  loading : Bool
deriving DecidableEq

/-- The JavaScript `String.prototype.trim`: strip leading and
trailing whitespace.  Defined structurally over the character list so
that it evaluates on concrete strings. -/
def strTrim (s : String) : String :=
  String.mk (((s.data.dropWhile Char.isWhitespace).reverse.dropWhile
    Char.isWhitespace).reverse)

/-- The send button's `disabled` predicate: `!input.trim() || loading`
(line 358). -/
def sendButtonDisabled (input : String) (loading : Bool) : Bool :=
  strTrim input == "" || loading

/-- The user message `handleSend` constructs (lines 153-158). -/
def mkUserMessage (prompt uid : String) (t1 : Nat) : Message :=
  { id := uid, role := Role.user, content := prompt, mode := none, timestamp := t1 }

/-- The synchronous first phase of `handleSend` (lines 150-162): guard
`if (!prompt || loading) return`, then append the user message, clear
the input and set `loading`. -/
def handleSendStart (s : ChatState) (uid : String) (t1 : Nat) : ChatState :=
  let prompt := strTrim s.input
  if prompt == "" || s.loading then s
  else
    { s with
      messages := s.messages ++ [mkUserMessage prompt uid t1]
      input := ""
      loading := true }

/-- The continuation of `handleSend` after `await sendMessage(prompt)`
settles (lines 164-185), for an arbitrary settled promise: on
fulfillment append an assistant message carrying the component `mode`;
on rejection append an error message with content
`err?.message ?? fallback` (`none` models a thrown value without a
`message`); in both cases `finally` clears `loading`. -/
def handleSendSettleGen (s : ChatState) (result : Except (Option String) String)
    (aid : String) (t2 : Nat) : ChatState :=
  match result with
  | Except.ok answer =>
    { s with
      messages := s.messages ++
        [{ id := aid, role := Role.assistant, content := answer,
           mode := some s.mode, timestamp := t2 }]
      loading := false }
  | Except.error errMsg =>
    { s with
      messages := s.messages ++
        [{ id := aid, role := Role.error, content := errMsg.getD fallbackMsg,
           mode := none, timestamp := t2 }]
      loading := false }

/-- The settle phase of `handleSend` as it actually runs: the awaited
promise is the one of `sendMessage`, which fulfills with
`sendMessage o` on every fetch outcome `o` (the body of `sendMessage`
is one `try`/`catch` whose `catch` returns). -/
def handleSendSettle (s : ChatState) (o : FetchOutcome) (aid : String) (t2 : Nat) :
    ChatState :=
  handleSendSettleGen s (Except.ok (sendMessage o)) aid t2

/-- A whole `handleSend` run (lines 149-186): the guard, then the
start phase, then the settle phase on fetch outcome `o`.  `uid`/`aid`
are the two generated ids, `t1`/`t2` the two timestamps. -/
def handleSend (s : ChatState) (o : FetchOutcome) (uid aid : String)
    (t1 t2 : Nat) : ChatState :=
  let prompt := strTrim s.input
  if prompt == "" || s.loading then s
  else handleSendSettle (handleSendStart s uid t1) o aid t2

/-- `MessageBubble` renders `msg.content` as the bubble text (line 120). -/
def bubbleContent (m : Message) : String := m.content

/-! ## FileUpload data model (FileUpload.tsx) -/

/-- A selected browser `File`, abstracted to the fields the component
reads: `name` and `size`. -/
structure SFile where
  name : String
  size : Nat
deriving DecidableEq

/-- The `useState` cells of `FileUpload` (lines 5-10). -/
structure UploadState where
  file : Option SFile
  dragOver : Bool
  uploading : Bool
  progress : ℚ
  uploaded : Bool
  uploadedFileName : String
deriving DecidableEq

/-- The initial values of the `useState` cells (lines 5-10). -/
def initialUploadState : UploadState :=
  { file := none, dragOver := false, uploading := false, progress := 0,
    uploaded := false, uploadedFileName := "" }

/-- `handleFileChange` when the input holds a file (lines 13-18):
record the file and clear `uploaded`. -/
def handleFileChange (s : UploadState) (f : SFile) : UploadState :=
  { s with file := some f, uploaded := false }

/-- `handleDrop` when the drag payload holds a file (lines 30-37):
clear `dragOver`, record the file and clear `uploaded`. -/
def handleDrop (s : UploadState) (f : SFile) : UploadState :=
  { s with dragOver := false, file := some f, uploaded := false }

/-- One firing of the simulated-progress interval callback
(lines 61-66): at 90 or above the interval stops and the value is
pinned to 90; below 90 the value grows by `r = Math.random() * 15`,
so `0 ≤ r < 15`. -/
def uploadTick (prev : ℚ) (r : ℚ) : ℚ :=
  if prev ≥ 90 then 90 else prev + r

/-- The simulated progress value after the interval has fired once per
element of `rs` (oldest increment first), starting from the
`setProgress(0)` of `handleUpload` (line 59). -/
def progressAfterTicks (rs : List ℚ) : ℚ :=
  rs.foldl uploadTick 0

/-- Outcome of the `fetch` of the upload endpoint as observable by
`handleUpload`: a 2xx response (`response.ok`), a non-2xx response, or
a network-level rejection. -/
inductive UploadOutcome where
  | success
  | httpError
  | networkError
deriving DecidableEq

/-- The settle phase of `handleUpload` once the upload `fetch` settles
(lines 71-93), returning the `setTimeout` delay in milliseconds
together with the state after the delayed callback ran.  Each branch
is translated from its own path through the source:
on `ok` the `try` block sets progress to 100 and schedules the
600 ms callback; on a non-2xx response the `try` block sets progress
to 100, throws, and the `catch` sets progress to 100 again and
schedules the same callback; on a network rejection the `catch` alone
runs. -/
def handleUploadSettle (s : UploadState) (f : SFile) (o : UploadOutcome) :
    Nat × UploadState :=
  match o with
  | UploadOutcome.success =>
    let s1 := { s with progress := 100 }
    (600, { s1 with uploadedFileName := f.name, uploaded := true, uploading := false })
  | UploadOutcome.httpError =>
    let s1 := { s with progress := 100 }
    let s2 := { s1 with progress := 100 }
    (600, { s2 with uploadedFileName := f.name, uploaded := true, uploading := false })
  | UploadOutcome.networkError =>
    let s1 := { s with progress := 100 }
    (600, { s1 with uploadedFileName := f.name, uploaded := true, uploading := false })

/-- A whole `handleUpload` run (lines 56-94): guard `if (!file) return`,
then `setUploading(true)`/`setProgress(0)`, the interval firings `rs`
that race the fetch, and the settle phase on fetch outcome `o` (which
overwrites the simulated progress with 100). -/
def handleUpload (s : UploadState) (rs : List ℚ) (o : UploadOutcome) : UploadState :=
  match s.file with
  | none => s
  | some f =>
    let s1 := { s with uploading := true, progress := 0 }
    let s2 := { s1 with progress := progressAfterTicks rs }
    (handleUploadSettle s2 f o).2

/-- `handleReset` (lines 96-101). -/
def handleReset (s : UploadState) : UploadState :=
  { s with file := none, uploaded := false, progress := 0, uploadedFileName := "" }

/-- What `FileUpload` renders (lines 103-106): once `uploaded` is set
it renders `ChatBot` with `fileName = uploadedFileName` (which the
chat header displays); otherwise the upload screen. -/
inductive Screen where
  | upload
  | chat (fileName : String)
deriving DecidableEq

/-- The screen selection of `FileUpload` (lines 104-106). -/
def render (s : UploadState) : Screen :=
  if s.uploaded then Screen.chat s.uploadedFileName else Screen.upload

/-- A concrete idle chat state used to instantiate theorems. -/
def sampleChatState : ChatState :=
  { messages := [], input := "hi", mode := Mode.file_only, loading := false }

/-- A concrete chat state with an outstanding request, used to
instantiate theorems. -/
def sampleLoadingState : ChatState :=
  { messages := [], input := "hi", mode := Mode.file_only, loading := true }

/-! ## Theorems -/

/-- C1: for every upload attempt on a selected file, a non-2xx
response and a network failure settle exactly as a 2xx response does:
the same fixed 600 ms delay, after which the file name is recorded,
the transfer is marked uploaded, and the uploading flag is cleared. -/
theorem upload_failure_treated_as_success (s : UploadState) (f : SFile)
    (o : UploadOutcome) :
    handleUploadSettle s f o = handleUploadSettle s f UploadOutcome.success
  ∧ (handleUploadSettle s f o).1 = 600
  ∧ (handleUploadSettle s f o).2.uploadedFileName = f.name
  ∧ (handleUploadSettle s f o).2.uploaded = true
  ∧ (handleUploadSettle s f o).2.uploading = false := by
  cases o <;> simp [handleUploadSettle]

/-- C2: the displayed chat answer is the first present field among
`answer`, `response`, `message` of an ok JSON response; a non-2xx
status, a network error, an unparseable body, or the absence of all
three fields yields the fixed fallback string; for the body
`{"answer": "X"}` the settled send appends a bubble whose rendered
content is `"X"`. -/
theorem chat_answer_selection (d : ChatJson) (b : Option ChatJson)
    (s : ChatState) (aid : String) (t2 : Nat) :
    sendMessage (FetchOutcome.httpResponse true (some d))
      = d.answer.getD (d.response.getD (d.message.getD fallbackMsg))
  ∧ sendMessage (FetchOutcome.httpResponse false b) = fallbackMsg
  ∧ sendMessage FetchOutcome.networkError = fallbackMsg
  ∧ sendMessage (FetchOutcome.httpResponse true none) = fallbackMsg
  ∧ sendMessage (FetchOutcome.httpResponse true
      (some { answer := none, response := none, message := none })) = fallbackMsg
  ∧ ∃ m, (handleSendSettle s (FetchOutcome.httpResponse true
        (some { answer := some "X", response := none, message := none })) aid t2).messages
      = s.messages ++ [m] ∧ bubbleContent m = "X" := by
  refine ⟨rfl, rfl, rfl, rfl, rfl, ?_⟩
  exact ⟨{ id := aid, role := Role.assistant, content := "X",
           mode := some s.mode, timestamp := t2 }, rfl, rfl⟩

/-- C9: the reset action clears the file, the uploaded flag, the
progress and the stored uploaded file name back to their initial
values, and the component then renders the upload screen again. -/
theorem reset_restores_initial_upload_state (s : UploadState) :
    (handleReset s).file = initialUploadState.file
  ∧ (handleReset s).uploaded = initialUploadState.uploaded
  ∧ (handleReset s).progress = initialUploadState.progress
  ∧ (handleReset s).uploadedFileName = initialUploadState.uploadedFileName
  ∧ render (handleReset s) = Screen.upload := by
  simp [handleReset, initialUploadState, render]

/-- C10: `sendMessage` settles with a string on every fetch outcome
(its whole body is a `try`/`catch` whose `catch` returns), so the
settle phase of `handleSend` always takes the fulfillment branch and
appends a message with role `assistant` — the error-role branch is
unreachable for a send that awaits `sendMessage`. -/
theorem settled_send_never_error_role (s : ChatState) (o : FetchOutcome)
    (aid : String) (t2 : Nat) :
    handleSendSettle s o aid t2
      = handleSendSettleGen s (Except.ok (sendMessage o)) aid t2
  ∧ (handleSendSettle s o aid t2).messages
      = s.messages ++
          [{ id := aid, role := Role.assistant, content := sendMessage o,
             mode := some s.mode, timestamp := t2 }] := by
  exact ⟨rfl, rfl⟩

/-- C3: for a typed message with non-empty trimmed content and no
outstanding request, the start phase appends exactly the one user
message, and the whole send appends exactly that user message followed
by exactly one assistant-or-error message. -/
theorem send_appends_user_then_one_reply (s : ChatState) (o : FetchOutcome)
    (uid aid : String) (t1 t2 : Nat)
    (h : strTrim s.input ≠ "") (hl : s.loading = false) :
    (handleSendStart s uid t1).messages
      = s.messages ++ [mkUserMessage (strTrim s.input) uid t1]
  ∧ ∃ m, (handleSend s o uid aid t1 t2).messages
      = s.messages ++ [mkUserMessage (strTrim s.input) uid t1, m]
      ∧ (m.role = Role.assistant ∨ m.role = Role.error) := by
  have hb : (strTrim s.input == "") = false := by
    simpa using h
  constructor
  · simp [handleSendStart, hb, hl]
  · refine ⟨{ id := aid, role := Role.assistant, content := sendMessage o,
              mode := some s.mode, timestamp := t2 }, ?_, Or.inl rfl⟩
    simp [handleSend, handleSendStart, handleSendSettle, handleSendSettleGen,
      hb, hl]

/-- C3 witness. -/
theorem send_appends_user_then_one_reply_witness :
    strTrim sampleChatState.input ≠ ""
  ∧ ((handleSendStart sampleChatState "u1" 0).messages
      = sampleChatState.messages ++ [mkUserMessage (strTrim sampleChatState.input) "u1" 0]
  ∧ ∃ m, (handleSend sampleChatState FetchOutcome.networkError "u1" "a1" 0 1).messages
      = sampleChatState.messages ++ [mkUserMessage (strTrim sampleChatState.input) "u1" 0, m]
      ∧ (m.role = Role.assistant ∨ m.role = Role.error)) :=
  ⟨by decide,
   send_appends_user_then_one_reply sampleChatState FetchOutcome.networkError
     "u1" "a1" 0 1 (by decide) rfl⟩

/-- Every prefix-bounded fold of the interval callback stays within
`[0, 105)`: a firing at 90 or above pins the value to 90; a firing
below 90 adds less than 15, so the value stays below `90 + 15`. -/
theorem foldl_uploadTick_bounds :
    ∀ (rs : List ℚ) (p : ℚ), (∀ r ∈ rs, 0 ≤ r ∧ r < 15) → 0 ≤ p → p < 105 →
      0 ≤ rs.foldl uploadTick p ∧ rs.foldl uploadTick p < 105 := by
  intro rs
  induction rs with
  | nil =>
    intro p _ hp0 hp1
    exact ⟨hp0, hp1⟩
  | cons r rs ih =>
    intro p h hp0 hp1
    simp only [List.foldl_cons]
    have hr := h r (List.mem_cons_self r rs)
    have htail : ∀ x ∈ rs, 0 ≤ x ∧ x < 15 :=
      fun x hx => h x (List.mem_cons_of_mem r hx)
    by_cases hc : p ≥ 90
    · have he : uploadTick p r = 90 := by simp [uploadTick, hc]
      rw [he]
      exact ih 90 htail (by norm_num) (by norm_num)
    · have he : uploadTick p r = p + r := by simp [uploadTick, hc]
      rw [he]
      push_neg at hc
      exact ih (p + r) htail (by linarith [hr.1]) (by linarith [hr.2])

/-- C4 (amended): for every sequence of randomized interval firings,
the simulated progress value stays within `0 ≤ p < 105`; the bound 100
of the claim does not hold (see the counterexample). -/
theorem progress_within_0_105 (rs : List ℚ)
    (h : ∀ r ∈ rs, 0 ≤ r ∧ r < 15) :
    0 ≤ progressAfterTicks rs ∧ progressAfterTicks rs < 105 :=
  foldl_uploadTick_bounds rs 0 h (by norm_num) (by norm_num)

/-- C4 witness for the amended bound. -/
theorem progress_within_0_105_witness :
    (∀ r ∈ ([1, 14] : List ℚ), 0 ≤ r ∧ r < 15)
  ∧ (0 ≤ progressAfterTicks [1, 14] ∧ progressAfterTicks [1, 14] < 105) :=
  ⟨by intro r hr; simp at hr; rcases hr with rfl | rfl <;> norm_num,
   progress_within_0_105 [1, 14]
     (by intro r hr; simp at hr; rcases hr with rfl | rfl <;> norm_num)⟩

/-- C4 counterexample: seven interval firings of `14.9` each (all
legal outcomes of `Math.random() * 15`) drive the simulated progress
to `104.3`, so the progress does not stay within 0-100. -/
theorem progress_can_exceed_100 :
    ¬ (∀ rs : List ℚ, (∀ r ∈ rs, 0 ≤ r ∧ r < 15) →
        0 ≤ progressAfterTicks rs ∧ progressAfterTicks rs ≤ 100) := by
  intro hcl
  have hv : ∀ r ∈ ([149/10, 149/10, 149/10, 149/10, 149/10, 149/10,
      149/10] : List ℚ), 0 ≤ r ∧ r < 15 := by
    intro r hr
    simp at hr
    subst hr
    norm_num
  have h := (hcl _ hv).2
  norm_num [progressAfterTicks, uploadTick, List.foldl] at h

/-- C5 counterexample: the client-selected mode is `file_only` (its
toggle is commented out), yet the JSON body of every chat request
carries the literal mode string `"rag"`, not the client mode. -/
theorem chat_mode_not_client_mode :
    (chatRequestBody "q").mode = "rag"
  ∧ clientInitialMode = Mode.file_only
  ∧ (chatRequestBody "q").mode ≠ Mode.toString clientInitialMode := by
  refine ⟨rfl, rfl, ?_⟩
  decide

/-- C5 (amended): the `mode` field of the JSON body of every chat
request is the fixed string `"rag"`, independent of the
client-selected mode hint, which is fixed to `file_only`. -/
theorem chat_mode_always_rag (q : String) :
    (chatRequestBody q).mode = "rag" ∧ clientInitialMode = Mode.file_only :=
  ⟨rfl, rfl⟩

/-- C6: the send button's disabled predicate holds exactly when the
trimmed input is empty or a request is outstanding; when it holds a
send is a no-op, and when it does not hold the send proceeds and
appends the user message and the settled reply. -/
theorem sending_disabled_guard (s : ChatState) (o : FetchOutcome)
    (uid aid : String) (t1 t2 : Nat) :
    (sendButtonDisabled s.input s.loading = true
       ↔ (strTrim s.input = "" ∨ s.loading = true))
  ∧ (sendButtonDisabled s.input s.loading = true →
       handleSend s o uid aid t1 t2 = s)
  ∧ (sendButtonDisabled s.input s.loading = false →
       (handleSend s o uid aid t1 t2).messages
         = s.messages ++
             [mkUserMessage (strTrim s.input) uid t1,
              { id := aid, role := Role.assistant, content := sendMessage o,
                mode := some s.mode, timestamp := t2 }]) := by
  refine ⟨?_, ?_, ?_⟩
  · simp [sendButtonDisabled]
  · intro hd
    simp only [sendButtonDisabled] at hd
    simp [handleSend, hd]
  · intro hd
    simp only [sendButtonDisabled, Bool.or_eq_false_iff] at hd
    obtain ⟨h1, h2⟩ := hd
    simp [handleSend, handleSendStart, handleSendSettle, handleSendSettleGen,
      h1, h2]

/-- C6 witness. -/
theorem sending_disabled_guard_witness :
    sendButtonDisabled sampleLoadingState.input sampleLoadingState.loading = true
  ∧ handleSend sampleLoadingState FetchOutcome.networkError "u1" "a1" 0 1
      = sampleLoadingState :=
  ⟨by decide,
   (sending_disabled_guard sampleLoadingState FetchOutcome.networkError
      "u1" "a1" 0 1).2.1 (by decide)⟩

/-- C7: every state update of the message list — the start phase of a
send, the settle phase on any settled promise, and a whole send —
extends the existing list at the end, so no existing message is
removed or modified. -/
theorem messages_append_only (s : ChatState) (r : Except (Option String) String)
    (o : FetchOutcome) (uid aid : String) (t1 t2 : Nat) :
    (∃ tail, (handleSendStart s uid t1).messages = s.messages ++ tail)
  ∧ (∃ tail, (handleSendSettleGen s r aid t2).messages = s.messages ++ tail)
  ∧ (∃ tail, (handleSend s o uid aid t1 t2).messages = s.messages ++ tail) := by
  refine ⟨?_, ?_, ?_⟩
  · by_cases hc : (strTrim s.input == "" || s.loading) = true
    · exact ⟨[], by simp [handleSendStart, hc]⟩
    · exact ⟨[mkUserMessage (strTrim s.input) uid t1],
        by simp [handleSendStart, hc]⟩
  · cases r with
    | ok answer =>
      exact ⟨[{ id := aid, role := Role.assistant, content := answer,
                mode := some s.mode, timestamp := t2 }], rfl⟩
    | error errMsg =>
      exact ⟨[{ id := aid, role := Role.error, content := errMsg.getD fallbackMsg,
                mode := none, timestamp := t2 }], rfl⟩
  · by_cases hc : (strTrim s.input == "" || s.loading) = true
    · exact ⟨[], by simp [handleSend, hc]⟩
    · refine ⟨[mkUserMessage (strTrim s.input) uid t1,
        { id := aid, role := Role.assistant, content := sendMessage o,
          mode := some s.mode, timestamp := t2 }], ?_⟩
      simp [handleSend, handleSendStart, handleSendSettle, handleSendSettleGen, hc]

/-- C8: for every file accepted through the file input or through
drag-and-drop, once the upload flow completes — whatever the interval
firings and the fetch outcome — the component renders the chat view
and the file name passed to it equals the accepted file's name. -/
theorem accepted_file_reaches_chat_view (s : UploadState) (f : SFile)
    (rs : List ℚ) (o : UploadOutcome) :
    render (handleUpload (handleFileChange s f) rs o) = Screen.chat f.name
  ∧ render (handleUpload (handleDrop s f) rs o) = Screen.chat f.name := by
  cases o <;>
    simp [handleFileChange, handleDrop, handleUpload, handleUploadSettle, render]

end RagFrontend
